import Mathlib

/-!
Verification of the document-grounded QA pipeline of this repository.

The definitions below are a shallow embedding of the Python sources:
  app/qa/pipeline.py   (context normalization, history folding, model lookup,
                        client construction, retry loop, answer extraction)
  app/config.py        (model registry and default model)
  app/main.py          (startup credential check)
  app/storage/chat_repository.py and app/api/ask.py (message persistence call)

Python strings are modelled as Lean String; machine state that the pipeline
reads (the HF_TOKEN environment variable, the behaviour of successive calls
to the inference backend) is passed explicitly in an Env record.  Fallible
operations return sum-like result types instead of raising.
-/

namespace App

/-- Whitespace test used by Python str.strip for the ASCII whitespace
characters: space, tab, newline, carriage return, vertical tab, form feed. -/
def pyIsSpace (c : Char) : Bool :=
  c == ' ' || c == '\t' || c == '\n' || c == '\r' ||
  c == Char.ofNat 11 || c == Char.ofNat 12

/-- Character-list form of Python str.strip: drop leading and trailing
whitespace characters. -/
def stripChars (l : List Char) : List Char :=
  ((l.dropWhile pyIsSpace).reverse.dropWhile pyIsSpace).reverse

/-- Model of Python str.strip (no arguments): remove surrounding whitespace. -/
def pyStrip (s : String) : String :=
  ⟨stripChars s.data⟩

theorem pyStrip_empty : pyStrip "" = "" := rfl

/-- If pyStrip s is empty then every character of s is whitespace. -/
theorem all_space_of_pyStrip_empty (s : String) (h : pyStrip s = "") :
    ∀ c ∈ s.data, pyIsSpace c = true := by
  have hdata : stripChars s.data = [] := congrArg String.data h
  unfold stripChars at hdata
  rw [List.reverse_eq_nil_iff] at hdata
  have h2 : ∀ c ∈ (s.data.dropWhile pyIsSpace).reverse, pyIsSpace c = true :=
    List.dropWhile_eq_nil_iff.mp hdata
  have h3 : ∀ c ∈ s.data.dropWhile pyIsSpace, pyIsSpace c = true := by
    intro c hc
    exact h2 c (List.mem_reverse.mpr hc)
  intro c hc
  rw [← List.takeWhile_append_dropWhile (p := pyIsSpace) (l := s.data)] at hc
  rcases List.mem_append.mp hc with h4 | h4
  · exact List.mem_takeWhile_imp h4
  · exact h3 c h4

/-- Context argument of the pipeline: in the source it is typed
str | list[str], with a defensive branch for any other runtime shape. -/
inductive ContextInput
  | ofStr (s : String)
  | ofList (xs : List String)
  | other
deriving DecidableEq

/-- EMPTY_CONTEXT_FALLBACK from app/qa/pipeline.py line 13. -/
def EMPTY_CONTEXT_FALLBACK : String := "No context provided."

/-- MAX_RETRIES from app/qa/pipeline.py line 16. -/
def MAX_RETRIES : Nat := 3

/-- RETRY_BACKOFF_BASE (seconds) from app/qa/pipeline.py line 17. -/
def RETRY_BACKOFF_BASE : Nat := 2

/-- One registry entry of QA_MODELS from app/config.py. -/
structure ModelConfig where
  id : String
  name : String
  model : String
deriving DecidableEq

/-- QA_MODELS from app/config.py lines 5-12. -/
def QA_MODELS : List ModelConfig :=
  [⟨"tinybert", "TinyBERT", "Intel/dynamic_tinybert"⟩,
   ⟨"distilbert", "DistilBERT", "distilbert/distilbert-base-cased-distilled-squad"⟩,
   ⟨"bert-base", "BERT Base Uncased", "deepset/bert-base-uncased-squad2"⟩,
   ⟨"deberta-v3-base", "DeBERTa v3 Base", "deepset/deberta-v3-base-squad2"⟩,
   ⟨"electra-base", "ELECTRA Base", "deepset/electra-base-squad2"⟩,
   ⟨"roberta-large", "RoBERTa Large", "deepset/roberta-large-squad2"⟩]

/-- QA_DEFAULT_MODEL from app/config.py line 13. -/
def QA_DEFAULT_MODEL : String := "distilbert"

/-- Embedding of _normalize_context (app/qa/pipeline.py lines 38-45).
A string is stripped; a list is filtered by the Python truthiness test
(s and s.strip()), the survivors stripped and joined with a blank line;
any other shape yields the empty string. -/
def _normalize_context : ContextInput → String
  | .ofStr s => pyStrip s
  | .ofList xs =>
      let parts := (xs.filter (fun s => !(s == "") && !(pyStrip s == ""))).map pyStrip
      if parts.isEmpty then "" else String.intercalate "\n\n" parts
  | .other => ""

/-- Embedding of list_models (app/qa/pipeline.py lines 48-50): only id and
name of each registry entry are exposed. -/
def list_models : List (String × String) :=
  QA_MODELS.map (fun m => (m.id, m.name))

/-- Rendering of one history turn, from the generator expression at
app/qa/pipeline.py line 78. -/
def renderTurn (t : String × String) : String :=
  "Q: " ++ t.1 ++ "\nA: " ++ t.2

/-- history_str at app/qa/pipeline.py line 78: turns joined with newlines. -/
def historyString (history : List (String × String)) : String :=
  String.intercalate "\n" (history.map renderTurn)

/-- Combined context as computed at app/qa/pipeline.py lines 76-79:
normalized base context, and when history is non-empty the labelled
Previous Q&A block is appended. -/
def composeContext (context : ContextInput) (history : List (String × String)) : String :=
  let ctx := _normalize_context context
  if history.isEmpty then ctx
  else ctx ++ "\n\n---\nPrevious Q&A:\n" ++ historyString history

/-- Resolution of the model_id argument at app/qa/pipeline.py line 75:
Python or-expression, so None and the empty string fall back to the default. -/
def resolveModelId : Option String → String
  | none => QA_DEFAULT_MODEL
  | some s => if s == "" then QA_DEFAULT_MODEL else s

/-- Embedding of _get_client (app/qa/pipeline.py lines 23-35): none models the
raised ValueError when HF_TOKEN is absent or blank, otherwise the constructed
client is represented by its token. -/
def _get_client : Option String → Option String
  | none => none
  | some t => if t == "" || pyStrip t == "" then none else some t

/-- Startup credential check from app/main.py lines 28-33: the lifespan hook
strips HF_TOKEN (defaulting to the empty string) and refuses to start when
the result is empty. -/
def startupTokenOk (hfToken : Option String) : Bool :=
  !(pyStrip (hfToken.getD "") == "")

/-- A Python dict as returned by the backend, modelled as an association
list of string keys and values; only the lookup of the answer key matters. -/
def RDict := List (String × String)
deriving DecidableEq

/-- Python dict.get with a default of None: value of the first binding of
the key, if any. -/
def dictGet (d : RDict) (k : String) : Option String :=
  (d.find? (fun p => p.1 == k)).map (fun p => p.2)

/-- Runtime shape of the value returned by client.question_answering as the
pipeline discriminates it (app/qa/pipeline.py lines 127-135): None, a list
of dicts, a single dict, or anything else with some truthiness. -/
inductive InferResult
  | pyNone
  | pyList (xs : List RDict)
  | pyDict (d : RDict)
  | pyOther (truthy : Bool)
deriving DecidableEq

/-- Python truthiness of the backend response: None is falsy, lists and
dicts are falsy exactly when empty. -/
def pyTruthy : InferResult → Bool
  | .pyNone => false
  | .pyList xs => !xs.isEmpty
  | .pyDict d => !d.isEmpty
  | .pyOther b => b

/-- Answer extraction from the backend response, embedding app/qa/pipeline.py
lines 127-135: falsy response yields the fallback; a list with positive
length yields element 0's answer field with the fallback default; a dict
yields its answer field with the same default; anything else the fallback. -/
def extractAnswer (result : InferResult) : String :=
  if !pyTruthy result then EMPTY_CONTEXT_FALLBACK
  else
    match result with
    | .pyList (x :: _) => (dictGet x "answer").getD EMPTY_CONTEXT_FALLBACK
    | .pyList [] => EMPTY_CONTEXT_FALLBACK
    | .pyDict d => (dictGet d "answer").getD EMPTY_CONTEXT_FALLBACK
    | .pyNone => EMPTY_CONTEXT_FALLBACK
    | .pyOther _ => EMPTY_CONTEXT_FALLBACK

/-- Outcome of one call to client.question_answering: a returned value, a
raised HfHubHTTPError carrying a response status code, or any other raised
exception (which the pipeline does not catch). -/
inductive BackendOutcome
  | success (r : InferResult)
  | httpError (status : Nat)
  | otherError
deriving DecidableEq

/-- Ambient state read by the pipeline: the HF_TOKEN environment variable
and the behaviour of the n-th backend invocation of the current call. -/
structure Env where
  hfToken : Option String
  backend : Nat → BackendOutcome

/-- Arguments of one client.question_answering invocation
(app/qa/pipeline.py lines 98-105). -/
structure InferenceRequest where
  question : String
  context : String
  model : String
  maxSeqLen : Nat
  docStride : Nat
  handleImpossibleAnswer : Bool
deriving DecidableEq

/-- How answer_with_history terminates: a returned answer string, the
ValueError for an unknown model id (line 85), the ValueError for a missing
HF_TOKEN (lines 27-30), a re-raised HfHubHTTPError, a propagated non-HTTP
exception, or the unreachable fall-through of the retry loop. -/
inductive PipelineResult
  | answer (s : String)
  | unknownModelError (mid : String)
  | missingTokenError
  | httpError (status : Nat)
  | otherError
  | loopFellThrough
deriving DecidableEq

/-- Observable trace of one answer_with_history call: its outcome, the
backend invocations made (in order), and the sleep durations in seconds. -/
structure Trace where
  result : PipelineResult
  requests : List InferenceRequest
  waits : List Nat
deriving DecidableEq

/-- State of the retry loop when it finishes. -/
inductive LoopOut
  | got (r : InferResult)
  | raised (status : Nat)
  | crashed
  | fellThrough
deriving DecidableEq

/-- Trace of the retry loop: terminal state, number of backend calls,
sleep durations in order. -/
structure LoopTrace where
  out : LoopOut
  calls : Nat
  waits : List Nat
deriving DecidableEq

/-- The for-loop of app/qa/pipeline.py lines 96-125, from a given attempt
index with the given number of iterations remaining.  A success breaks with
the result; an HfHubHTTPError with status 503 or 504 while
attempt < MAX_RETRIES - 1 sleeps RETRY_BACKOFF_BASE ** attempt seconds and
continues; any other HfHubHTTPError is re-raised; any other exception
propagates. -/
def retryGo (backend : Nat → BackendOutcome) (attempt : Nat) : Nat → LoopTrace
  | 0 => ⟨.fellThrough, 0, []⟩
  | fuel + 1 =>
      match backend attempt with
      | .success r => ⟨.got r, 1, []⟩
      | .httpError s =>
          if attempt < MAX_RETRIES - 1 ∧ (s = 503 ∨ s = 504) then
            let rest := retryGo backend (attempt + 1) fuel
            ⟨rest.out, rest.calls + 1, RETRY_BACKOFF_BASE ^ attempt :: rest.waits⟩
          else ⟨.raised s, 1, []⟩
      | .otherError => ⟨.crashed, 1, []⟩

/-- The retry loop entered at attempt 0 with MAX_RETRIES iterations, and the
answer extraction applied to a successful result (lines 96-135). -/
def runInference (backend : Nat → BackendOutcome) (req : InferenceRequest) : Trace :=
  let t := retryGo backend 0 MAX_RETRIES
  ⟨match t.out with
    | .got r => .answer (extractAnswer r)
    | .raised s => .httpError s
    | .crashed => .otherError
    | .fellThrough => .loopFellThrough,
   List.replicate t.calls req,
   t.waits⟩

/-- Embedding of answer_with_history (app/qa/pipeline.py lines 58-142):
resolve the model id, normalize context and fold history, short-circuit to
the fallback on empty combined context, look up the model (ValueError when
unknown), construct the client (ValueError when HF_TOKEN is blank), then
run the retry loop and extract the answer. -/
def answer_with_history (env : Env) (question : String) (context : ContextInput)
    (history : List (String × String)) (model_id : Option String) : Trace :=
  if composeContext context history = "" ∨ pyStrip (composeContext context history) = "" then
    ⟨.answer EMPTY_CONTEXT_FALLBACK, [], []⟩
  else
    match QA_MODELS.find? (fun m => m.id == resolveModelId model_id) with
    | none => ⟨.unknownModelError (resolveModelId model_id), [], []⟩
    | some mc =>
        match _get_client env.hfToken with
        | none => ⟨.missingTokenError, [], []⟩
        | some _ =>
            runInference env.backend
              ⟨question, composeContext context history, mc.model, 384, 128, true⟩

/-- Embedding of answer (app/qa/pipeline.py lines 53-55): the single-turn
entry point delegates with empty history and the default model. -/
def answer (env : Env) (question : String) (context : ContextInput) : Trace :=
  answer_with_history env question context [] (some QA_DEFAULT_MODEL)

theorem retryGo_step (backend : Nat → BackendOutcome) (attempt fuel : Nat) :
    retryGo backend attempt (fuel + 1) =
      match backend attempt with
      | .success r => ⟨.got r, 1, []⟩
      | .httpError s =>
          if attempt < MAX_RETRIES - 1 ∧ (s = 503 ∨ s = 504) then
            ⟨(retryGo backend (attempt + 1) fuel).out,
             (retryGo backend (attempt + 1) fuel).calls + 1,
             RETRY_BACKOFF_BASE ^ attempt :: (retryGo backend (attempt + 1) fuel).waits⟩
          else ⟨.raised s, 1, []⟩
      | .otherError => ⟨.crashed, 1, []⟩ := rfl

theorem retry0_success (backend : Nat → BackendOutcome) (r : InferResult)
    (h0 : backend 0 = .success r) :
    retryGo backend 0 MAX_RETRIES = ⟨.got r, 1, []⟩ := by
  have e : retryGo backend 0 MAX_RETRIES = retryGo backend 0 (2 + 1) := rfl
  rw [e, retryGo_step, h0]

theorem retry0_other (backend : Nat → BackendOutcome)
    (h0 : backend 0 = .otherError) :
    retryGo backend 0 MAX_RETRIES = ⟨.crashed, 1, []⟩ := by
  have e : retryGo backend 0 MAX_RETRIES = retryGo backend 0 (2 + 1) := rfl
  rw [e, retryGo_step, h0]

theorem retry0_fatal (backend : Nat → BackendOutcome) (s : Nat)
    (h0 : backend 0 = .httpError s) (hs : ¬(s = 503 ∨ s = 504)) :
    retryGo backend 0 MAX_RETRIES = ⟨.raised s, 1, []⟩ := by
  have e : retryGo backend 0 MAX_RETRIES = retryGo backend 0 (2 + 1) := rfl
  rw [e, retryGo_step]
  simp only [h0]
  rw [if_neg]
  exact fun hand => hs hand.2

theorem retry0_transient (backend : Nat → BackendOutcome) (s : Nat)
    (h0 : backend 0 = .httpError s) (hs : s = 503 ∨ s = 504) :
    retryGo backend 0 MAX_RETRIES =
      ⟨(retryGo backend 1 2).out, (retryGo backend 1 2).calls + 1,
       1 :: (retryGo backend 1 2).waits⟩ := by
  have e : retryGo backend 0 MAX_RETRIES = retryGo backend 0 (2 + 1) := rfl
  rw [e, retryGo_step]
  simp only [h0]
  rw [if_pos]
  · norm_num [RETRY_BACKOFF_BASE]
  · exact ⟨by norm_num [MAX_RETRIES], hs⟩

theorem retry1_success (backend : Nat → BackendOutcome) (r : InferResult)
    (h1 : backend 1 = .success r) :
    retryGo backend 1 2 = ⟨.got r, 1, []⟩ := by
  have e : retryGo backend 1 2 = retryGo backend 1 (1 + 1) := rfl
  rw [e, retryGo_step, h1]

theorem retry1_other (backend : Nat → BackendOutcome)
    (h1 : backend 1 = .otherError) :
    retryGo backend 1 2 = ⟨.crashed, 1, []⟩ := by
  have e : retryGo backend 1 2 = retryGo backend 1 (1 + 1) := rfl
  rw [e, retryGo_step, h1]

theorem retry1_fatal (backend : Nat → BackendOutcome) (s : Nat)
    (h1 : backend 1 = .httpError s) (hs : ¬(s = 503 ∨ s = 504)) :
    retryGo backend 1 2 = ⟨.raised s, 1, []⟩ := by
  have e : retryGo backend 1 2 = retryGo backend 1 (1 + 1) := rfl
  rw [e, retryGo_step]
  simp only [h1]
  rw [if_neg]
  exact fun hand => hs hand.2

theorem retry1_transient (backend : Nat → BackendOutcome) (s : Nat)
    (h1 : backend 1 = .httpError s) (hs : s = 503 ∨ s = 504) :
    retryGo backend 1 2 =
      ⟨(retryGo backend 2 1).out, (retryGo backend 2 1).calls + 1,
       2 :: (retryGo backend 2 1).waits⟩ := by
  have e : retryGo backend 1 2 = retryGo backend 1 (1 + 1) := rfl
  rw [e, retryGo_step]
  simp only [h1]
  rw [if_pos]
  · norm_num [RETRY_BACKOFF_BASE]
  · exact ⟨by norm_num [MAX_RETRIES], hs⟩

theorem retry2_success (backend : Nat → BackendOutcome) (r : InferResult)
    (h2 : backend 2 = .success r) :
    retryGo backend 2 1 = ⟨.got r, 1, []⟩ := by
  have e : retryGo backend 2 1 = retryGo backend 2 (0 + 1) := rfl
  rw [e, retryGo_step, h2]

theorem retry2_other (backend : Nat → BackendOutcome)
    (h2 : backend 2 = .otherError) :
    retryGo backend 2 1 = ⟨.crashed, 1, []⟩ := by
  have e : retryGo backend 2 1 = retryGo backend 2 (0 + 1) := rfl
  rw [e, retryGo_step, h2]

theorem retry2_http (backend : Nat → BackendOutcome) (s : Nat)
    (h2 : backend 2 = .httpError s) :
    retryGo backend 2 1 = ⟨.raised s, 1, []⟩ := by
  have e : retryGo backend 2 1 = retryGo backend 2 (0 + 1) := rfl
  rw [e, retryGo_step]
  simp only [h2]
  rw [if_neg]
  exact fun hand => absurd hand.1 (by norm_num [MAX_RETRIES])

/-- Exhaustive enumeration of the retry loop's behaviour over the three
possible attempts, with the exact trace in every case. -/
theorem retry_cases (backend : Nat → BackendOutcome) :
    (∃ r, backend 0 = .success r ∧ retryGo backend 0 MAX_RETRIES = ⟨.got r, 1, []⟩)
  ∨ (backend 0 = .otherError ∧ retryGo backend 0 MAX_RETRIES = ⟨.crashed, 1, []⟩)
  ∨ (∃ s, backend 0 = .httpError s ∧ ¬(s = 503 ∨ s = 504) ∧
      retryGo backend 0 MAX_RETRIES = ⟨.raised s, 1, []⟩)
  ∨ (∃ s0, backend 0 = .httpError s0 ∧ (s0 = 503 ∨ s0 = 504) ∧
      ( (∃ r, backend 1 = .success r ∧ retryGo backend 0 MAX_RETRIES = ⟨.got r, 2, [1]⟩)
      ∨ (backend 1 = .otherError ∧ retryGo backend 0 MAX_RETRIES = ⟨.crashed, 2, [1]⟩)
      ∨ (∃ s, backend 1 = .httpError s ∧ ¬(s = 503 ∨ s = 504) ∧
          retryGo backend 0 MAX_RETRIES = ⟨.raised s, 2, [1]⟩)
      ∨ (∃ s1, backend 1 = .httpError s1 ∧ (s1 = 503 ∨ s1 = 504) ∧
          ( (∃ r, backend 2 = .success r ∧ retryGo backend 0 MAX_RETRIES = ⟨.got r, 3, [1, 2]⟩)
          ∨ (backend 2 = .otherError ∧ retryGo backend 0 MAX_RETRIES = ⟨.crashed, 3, [1, 2]⟩)
          ∨ (∃ s, backend 2 = .httpError s ∧
              retryGo backend 0 MAX_RETRIES = ⟨.raised s, 3, [1, 2]⟩))))) := by
  rcases h0 : backend 0 with r0 | s0 | _
  · exact Or.inl ⟨r0, rfl, retry0_success backend r0 h0⟩
  · by_cases hs0 : s0 = 503 ∨ s0 = 504
    · refine Or.inr (Or.inr (Or.inr ⟨s0, rfl, hs0, ?_⟩))
      rcases h1 : backend 1 with r1 | s1 | _
      · exact Or.inl ⟨r1, rfl, by rw [retry0_transient backend s0 h0 hs0, retry1_success backend r1 h1]⟩
      · by_cases hs1 : s1 = 503 ∨ s1 = 504
        · refine Or.inr (Or.inr (Or.inr ⟨s1, rfl, hs1, ?_⟩))
          rcases h2 : backend 2 with r2 | s2 | _
          · exact Or.inl ⟨r2, rfl, by
              rw [retry0_transient backend s0 h0 hs0, retry1_transient backend s1 h1 hs1,
                retry2_success backend r2 h2]⟩
          · exact Or.inr (Or.inr ⟨s2, rfl, by
              rw [retry0_transient backend s0 h0 hs0, retry1_transient backend s1 h1 hs1,
                retry2_http backend s2 h2]⟩)
          · exact Or.inr (Or.inl ⟨rfl, by
              rw [retry0_transient backend s0 h0 hs0, retry1_transient backend s1 h1 hs1,
                retry2_other backend h2]⟩)
        · exact Or.inr (Or.inr (Or.inl ⟨s1, rfl, hs1, by
            rw [retry0_transient backend s0 h0 hs0, retry1_fatal backend s1 h1 hs1]⟩))
      · exact Or.inr (Or.inl ⟨rfl, by
          rw [retry0_transient backend s0 h0 hs0, retry1_other backend h1]⟩)
    · exact Or.inr (Or.inr (Or.inl ⟨s0, rfl, hs0, retry0_fatal backend s0 h0 hs0⟩))
  · exact Or.inr (Or.inl ⟨rfl, retry0_other backend h0⟩)

/-- The trace of the two-transient-failures-then-success scenario: three
calls, backoffs of one second then two. -/
theorem loop_scenario (backend : Nat → BackendOutcome) (r : InferResult)
    (h0 : backend 0 = .httpError 503) (h1 : backend 1 = .httpError 503)
    (h2 : backend 2 = .success r) :
    retryGo backend 0 MAX_RETRIES = ⟨.got r, 3, [1, 2]⟩ := by
  rw [retry0_transient backend 503 h0 (Or.inl rfl),
    retry1_transient backend 503 h1 (Or.inl rfl), retry2_success backend r h2]

/-- A success on the first attempt breaks the loop at once. -/
theorem loop_first_success (backend : Nat → BackendOutcome) (r : InferResult)
    (h0 : backend 0 = .success r) :
    retryGo backend 0 MAX_RETRIES = ⟨.got r, 1, []⟩ :=
  retry0_success backend r h0

theorem loop_calls_pos (backend : Nat → BackendOutcome) :
    1 ≤ (retryGo backend 0 MAX_RETRIES).calls := by
  rcases retry_cases backend with ⟨r, h0, ht⟩ | ⟨h0, ht⟩ | ⟨s0, h0, hs0, ht⟩ |
    ⟨s0, h0, hs0, ⟨r, h1, ht⟩ | ⟨h1, ht⟩ | ⟨s1, h1, hs1, ht⟩ |
      ⟨s1, h1, hs1, ⟨r, h2, ht⟩ | ⟨h2, ht⟩ | ⟨s2, h2, ht⟩⟩⟩ <;>
    rw [ht] <;> norm_num

theorem loop_calls_le (backend : Nat → BackendOutcome) :
    (retryGo backend 0 MAX_RETRIES).calls ≤ MAX_RETRIES := by
  rcases retry_cases backend with ⟨r, h0, ht⟩ | ⟨h0, ht⟩ | ⟨s0, h0, hs0, ht⟩ |
    ⟨s0, h0, hs0, ⟨r, h1, ht⟩ | ⟨h1, ht⟩ | ⟨s1, h1, hs1, ht⟩ |
      ⟨s1, h1, hs1, ⟨r, h2, ht⟩ | ⟨h2, ht⟩ | ⟨s2, h2, ht⟩⟩⟩ <;>
    rw [ht] <;> norm_num [MAX_RETRIES]

/-- The observed sleep durations are exactly RETRY_BACKOFF_BASE ** attempt
for the attempts that were retried, in order. -/
theorem loop_waits (backend : Nat → BackendOutcome) :
    (retryGo backend 0 MAX_RETRIES).waits =
      (List.range ((retryGo backend 0 MAX_RETRIES).calls - 1)).map
        (fun i => RETRY_BACKOFF_BASE ^ i) := by
  rcases retry_cases backend with ⟨r, h0, ht⟩ | ⟨h0, ht⟩ | ⟨s0, h0, hs0, ht⟩ |
    ⟨s0, h0, hs0, ⟨r, h1, ht⟩ | ⟨h1, ht⟩ | ⟨s1, h1, hs1, ht⟩ |
      ⟨s1, h1, hs1, ⟨r, h2, ht⟩ | ⟨h2, ht⟩ | ⟨s2, h2, ht⟩⟩⟩ <;>
    rw [ht] <;> norm_num [List.range_succ, RETRY_BACKOFF_BASE]

/-- Every attempt that was followed by another attempt failed with an
HfHubHTTPError whose status was 503 or 504. -/
theorem loop_transient_only (backend : Nat → BackendOutcome) :
    ∀ i, i + 1 < (retryGo backend 0 MAX_RETRIES).calls →
      ∃ s, backend i = .httpError s ∧ (s = 503 ∨ s = 504) := by
  rcases retry_cases backend with ⟨r, h0, ht⟩ | ⟨h0, ht⟩ | ⟨s0, h0, hs0, ht⟩ |
    ⟨s0, h0, hs0, ⟨r, h1, ht⟩ | ⟨h1, ht⟩ | ⟨s1, h1, hs1, ht⟩ |
      ⟨s1, h1, hs1, ⟨r, h2, ht⟩ | ⟨h2, ht⟩ | ⟨s2, h2, ht⟩⟩⟩ <;>
    rw [ht] <;> intro i hi <;> simp only at hi
  · omega
  · omega
  · omega
  · have : i = 0 := by omega
    subst this
    exact ⟨s0, h0, hs0⟩
  · have : i = 0 := by omega
    subst this
    exact ⟨s0, h0, hs0⟩
  · have : i = 0 := by omega
    subst this
    exact ⟨s0, h0, hs0⟩
  · rcases (by omega : i = 0 ∨ i = 1) with hi0 | hi1
    · subst hi0
      exact ⟨s0, h0, hs0⟩
    · subst hi1
      exact ⟨s1, h1, hs1⟩
  · rcases (by omega : i = 0 ∨ i = 1) with hi0 | hi1
    · subst hi0
      exact ⟨s0, h0, hs0⟩
    · subst hi1
      exact ⟨s1, h1, hs1⟩
  · rcases (by omega : i = 0 ∨ i = 1) with hi0 | hi1
    · subst hi0
      exact ⟨s0, h0, hs0⟩
    · subst hi1
      exact ⟨s1, h1, hs1⟩

/-- When the loop re-raises an HfHubHTTPError, it is the error of the last
attempt, with its status unchanged. -/
theorem loop_raised_last (backend : Nat → BackendOutcome) :
    ∀ s, (retryGo backend 0 MAX_RETRIES).out = .raised s →
      backend ((retryGo backend 0 MAX_RETRIES).calls - 1) = .httpError s := by
  rcases retry_cases backend with ⟨r, h0, ht⟩ | ⟨h0, ht⟩ | ⟨s0, h0, hs0, ht⟩ |
    ⟨s0, h0, hs0, ⟨r, h1, ht⟩ | ⟨h1, ht⟩ | ⟨s1, h1, hs1, ht⟩ |
      ⟨s1, h1, hs1, ⟨r, h2, ht⟩ | ⟨h2, ht⟩ | ⟨s2, h2, ht⟩⟩⟩ <;>
    rw [ht] <;> intro s hs
  · exact absurd hs (by simp)
  · exact absurd hs (by simp)
  · injection hs with hss
    exact hss ▸ h0
  · exact absurd hs (by simp)
  · exact absurd hs (by simp)
  · injection hs with hss
    exact hss ▸ h1
  · exact absurd hs (by simp)
  · exact absurd hs (by simp)
  · injection hs with hss
    exact hss ▸ h2

theorem runInference_eq (backend : Nat → BackendOutcome) (req : InferenceRequest)
    (t : LoopTrace) (ht : retryGo backend 0 MAX_RETRIES = t) :
    runInference backend req =
      ⟨match t.out with
        | .got r => .answer (extractAnswer r)
        | .raised s => .httpError s
        | .crashed => .otherError
        | .fellThrough => .loopFellThrough,
       List.replicate t.calls req, t.waits⟩ := by
  unfold runInference
  rw [ht]

/-- Either the call ends before the inference loop (empty-context fallback,
unknown model, or missing credential), with no backend call and no sleep,
or the loop runs on the composed context with the resolved model. -/
theorem awh_cases (env : Env) (q : String) (c : ContextInput)
    (h : List (String × String)) (mid : Option String) :
    ((answer_with_history env q c h mid).requests = []
      ∧ (answer_with_history env q c h mid).waits = []
      ∧ ((answer_with_history env q c h mid).result = .answer EMPTY_CONTEXT_FALLBACK
         ∨ (answer_with_history env q c h mid).result = .unknownModelError (resolveModelId mid)
         ∨ (answer_with_history env q c h mid).result = .missingTokenError))
  ∨ (∃ mc, QA_MODELS.find? (fun m => m.id == resolveModelId mid) = some mc
      ∧ ¬(composeContext c h = "" ∨ pyStrip (composeContext c h) = "")
      ∧ answer_with_history env q c h mid
          = runInference env.backend ⟨q, composeContext c h, mc.model, 384, 128, true⟩) := by
  unfold answer_with_history
  by_cases hctx : composeContext c h = "" ∨ pyStrip (composeContext c h) = ""
  · rw [if_pos hctx]
    exact Or.inl ⟨rfl, rfl, Or.inl rfl⟩
  · rw [if_neg hctx]
    rcases hfind : QA_MODELS.find? (fun m => m.id == resolveModelId mid) with _ | mc
    · refine Or.inl ⟨?_, ?_, ?_⟩ <;> simp [hfind]
    · rcases hcl : _get_client env.hfToken with _ | tok
      · refine Or.inl ⟨?_, ?_, ?_⟩ <;> simp [hfind, hcl]
      · exact Or.inr ⟨mc, hfind, hctx, by simp [hfind, hcl]⟩

/-- C2: the inference invocation is retried only when the upstream failure
carries HTTP status 503 or 504 and only while attempt < MAX_RETRIES - 1 (at
most 3 attempts), waiting RETRY_BACKOFF_BASE ** attempt seconds before each
retry (1s then 2s); any other failure, or exhaustion of the retries,
re-raises the underlying error unchanged; and when the first two calls fail
with 503 and the third succeeds, the call succeeds with exactly 3 backend
attempts and backoffs of 1s and 2s. -/
theorem c2_retry_policy (env : Env) (q : String) (c : ContextInput)
    (h : List (String × String)) (mid : Option String) :
    (answer_with_history env q c h mid).requests.length ≤ MAX_RETRIES
    ∧ (answer_with_history env q c h mid).waits =
        (List.range ((answer_with_history env q c h mid).requests.length - 1)).map
          (fun i => RETRY_BACKOFF_BASE ^ i)
    ∧ (∀ i, i + 1 < (answer_with_history env q c h mid).requests.length →
        ∃ s, env.backend i = .httpError s ∧ (s = 503 ∨ s = 504))
    ∧ (∀ s, (answer_with_history env q c h mid).result = .httpError s →
        env.backend ((answer_with_history env q c h mid).requests.length - 1) = .httpError s)
    ∧ (∀ r, env.backend 0 = .httpError 503 → env.backend 1 = .httpError 503 →
        env.backend 2 = .success r → (answer_with_history env q c h mid).requests ≠ [] →
        (answer_with_history env q c h mid).result = .answer (extractAnswer r)
        ∧ (answer_with_history env q c h mid).requests.length = 3
        ∧ (answer_with_history env q c h mid).waits = [1, 2]) := by
  rcases awh_cases env q c h mid with ⟨hreq, hwaits, hres⟩ | ⟨mc, hfind, hctx, heq⟩
  · refine ⟨?_, ?_, ?_, ?_, ?_⟩
    · rw [hreq]
      norm_num [MAX_RETRIES]
    · rw [hreq, hwaits]
      simp
    · intro i hi
      rw [hreq] at hi
      simp at hi
    · intro s hs
      rcases hres with h1 | h1 | h1 <;> rw [h1] at hs <;> exact absurd hs (by simp)
    · intro r h0 h1 h2 hne
      exact absurd hreq hne
  · have hR : (answer_with_history env q c h mid).requests.length
        = (retryGo env.backend 0 MAX_RETRIES).calls := by
      rw [heq]
      unfold runInference
      simp [List.length_replicate]
    have hW : (answer_with_history env q c h mid).waits
        = (retryGo env.backend 0 MAX_RETRIES).waits := by
      rw [heq]
      rfl
    have hRes : (answer_with_history env q c h mid).result
        = (match (retryGo env.backend 0 MAX_RETRIES).out with
            | .got r => PipelineResult.answer (extractAnswer r)
            | .raised s => .httpError s
            | .crashed => .otherError
            | .fellThrough => .loopFellThrough) := by
      rw [heq]
      rfl
    refine ⟨?_, ?_, ?_, ?_, ?_⟩
    · rw [hR]
      exact loop_calls_le env.backend
    · rw [hW, hR]
      exact loop_waits env.backend
    · intro i hi
      rw [hR] at hi
      exact loop_transient_only env.backend i hi
    · intro s hs
      rw [hRes] at hs
      rw [hR]
      have hout : (retryGo env.backend 0 MAX_RETRIES).out = .raised s := by
        rcases h' : (retryGo env.backend 0 MAX_RETRIES).out with r' | s' | _ | _ <;>
          rw [h'] at hs <;> simp at hs <;> rw [hs]
      exact loop_raised_last env.backend s hout
    · intro r h0 h1 h2 hne
      have hsc := loop_scenario env.backend r h0 h1 h2
      have heq2 := runInference_eq env.backend
        ⟨q, composeContext c h, mc.model, 384, 128, true⟩ _ hsc
      rw [heq, heq2]
      exact ⟨rfl, by simp [List.length_replicate], rfl⟩

/-- Backend response used by the retry example: a one-element list whose
first dict binds the answer key. -/
def egAnswerList : InferResult :=
  .pyList [[("answer", "March 15, 2025"), ("score", "0.9")]]

/-- Example environment for the retry scenario: a valid token and a backend
whose first two calls raise 503 and whose third call succeeds. -/
def env503 : Env :=
  ⟨some "hf_token", fun n => if n < 2 then .httpError 503 else .success egAnswerList⟩

theorem c2_retry_policy_witness :
    (answer_with_history env503 "When does the contract expire?"
        (.ofStr "The contract expires March 15.") [] none).result
      = .answer (extractAnswer egAnswerList)
    ∧ (answer_with_history env503 "When does the contract expire?"
        (.ofStr "The contract expires March 15.") [] none).requests.length = 3
    ∧ (answer_with_history env503 "When does the contract expire?"
        (.ofStr "The contract expires March 15.") [] none).waits = [1, 2] :=
  (c2_retry_policy env503 "When does the contract expire?"
      (.ofStr "The contract expires March 15.") [] none).2.2.2.2
    egAnswerList rfl rfl rfl (by decide)

theorem filter_map_strip_comm (xs : List String) :
    (xs.filter (fun s => !(s == "") && !(pyStrip s == ""))).map pyStrip
      = (xs.map pyStrip).filter (fun t => !(t == "")) := by
  induction xs with
  | nil => rfl
  | cons a l ih =>
      by_cases ha : pyStrip a = ""
      · simp [List.filter_cons, List.map_cons, ha, ih]
      · have ha2 : ¬(a = "") := fun he => ha (he ▸ pyStrip_empty)
        simp [List.filter_cons, List.map_cons, ha, ha2, ih]

theorem intercalate_if_isEmpty (l : List String) :
    (if l.isEmpty then "" else String.intercalate "\n\n" l)
      = String.intercalate "\n\n" l := by
  cases l with
  | nil => rfl
  | cons a l => rfl

/-- C3: context normalization trims a single string; for a sequence it
trims every element, drops those that are empty after trimming, and joins
the survivors in order with a blank-line separator (the empty string when
none survive); any other shape yields the empty string; and the three
concrete examples of the specification hold. -/
theorem c3_normalize_context :
    (∀ s, _normalize_context (.ofStr s) = pyStrip s)
    ∧ (∀ xs, _normalize_context (.ofList xs)
        = String.intercalate "\n\n" ((xs.map pyStrip).filter (fun t => !(t == ""))))
    ∧ _normalize_context .other = ""
    ∧ _normalize_context (.ofStr "  hello  ") = "hello"
    ∧ _normalize_context (.ofList ["doc1", "doc2"]) = "doc1\n\ndoc2"
    ∧ _normalize_context (.ofList ["  a  ", "", "  b  "]) = "a\n\nb" := by
  refine ⟨fun s => rfl, ?_, rfl, by decide, by decide, by decide⟩
  intro xs
  have e : _normalize_context (.ofList xs)
      = (if ((xs.filter (fun s => !(s == "") && !(pyStrip s == ""))).map pyStrip).isEmpty
         then ""
         else String.intercalate "\n\n"
           ((xs.filter (fun s => !(s == "") && !(pyStrip s == ""))).map pyStrip)) := rfl
  rw [e, filter_map_strip_comm xs, intercalate_if_isEmpty]

/-- C4: extraction of the answer from the backend response obeys the spec
policy case by case, and through the whole pipeline an empty-dict or None
response produces the fixed fallback answer. -/
theorem c4_extraction_policy :
    (∀ r, pyTruthy r = false → extractAnswer r = EMPTY_CONTEXT_FALLBACK)
    ∧ (∀ x xs, extractAnswer (.pyList (x :: xs))
        = (dictGet x "answer").getD EMPTY_CONTEXT_FALLBACK)
    ∧ (∀ d, extractAnswer (.pyDict d)
        = (dictGet d "answer").getD EMPTY_CONTEXT_FALLBACK)
    ∧ extractAnswer .pyNone = EMPTY_CONTEXT_FALLBACK
    ∧ (∀ b, extractAnswer (.pyOther b) = EMPTY_CONTEXT_FALLBACK)
    ∧ (∀ env q c h mid, env.backend 0 = .success .pyNone →
        (answer_with_history env q c h mid).requests ≠ [] →
        (answer_with_history env q c h mid).result = .answer EMPTY_CONTEXT_FALLBACK)
    ∧ (∀ env q c h mid, env.backend 0 = .success (.pyDict []) →
        (answer_with_history env q c h mid).requests ≠ [] →
        (answer_with_history env q c h mid).result = .answer EMPTY_CONTEXT_FALLBACK) := by
  refine ⟨?_, ?_, ?_, rfl, ?_, ?_, ?_⟩
  · intro r hr
    simp [extractAnswer, hr]
  · intro x xs
    simp [extractAnswer, pyTruthy]
  · intro d
    cases d with
    | nil => simp [extractAnswer, pyTruthy, dictGet]
    | cons p ps => simp [extractAnswer, pyTruthy]
  · intro b
    cases b <;> rfl
  · intro env q c h mid h0 hne
    rcases awh_cases env q c h mid with ⟨hreq, _, _⟩ | ⟨mc, hfind, hctx, heq⟩
    · exact absurd hreq hne
    · have hsc := loop_first_success env.backend _ h0
      have heq2 := runInference_eq env.backend
        ⟨q, composeContext c h, mc.model, 384, 128, true⟩ _ hsc
      rw [heq, heq2]
      rfl
  · intro env q c h mid h0 hne
    rcases awh_cases env q c h mid with ⟨hreq, _, _⟩ | ⟨mc, hfind, hctx, heq⟩
    · exact absurd hreq hne
    · have hsc := loop_first_success env.backend _ h0
      have heq2 := runInference_eq env.backend
        ⟨q, composeContext c h, mc.model, 384, 128, true⟩ _ hsc
      rw [heq, heq2]
      rfl

/-- Environment whose backend always returns Python None. -/
def noneEnv : Env := ⟨some "hf_token", fun _ => .success .pyNone⟩

theorem c4_extraction_policy_witness :
    (answer_with_history noneEnv "q" (.ofStr "some context") [] none).result
      = .answer EMPTY_CONTEXT_FALLBACK :=
  c4_extraction_policy.2.2.2.2.2.1 noneEnv "q" (.ofStr "some context") [] none rfl
    (by decide)

/-- The context inputs named by the specification as producing the
fallback: an empty or whitespace-only string, or a sequence whose elements
are all empty or whitespace-only (the empty sequence included). -/
def emptyishContext : ContextInput → Prop
  | .ofStr s => pyStrip s = ""
  | .ofList xs => ∀ s ∈ xs, pyStrip s = ""
  | .other => False

theorem filter_allstripped_nil (xs : List String) :
    (∀ s ∈ xs, pyStrip s = "") →
    (xs.map pyStrip).filter (fun t => !(t == "")) = [] := by
  induction xs with
  | nil => intro _; rfl
  | cons a l ih =>
      intro hc
      have ha : pyStrip a = "" := hc a (by simp)
      simp [List.map_cons, List.filter_cons, ha,
        ih (fun s hs => hc s (by simp [hs]))]

theorem normalize_ofList (xs : List String) :
    _normalize_context (.ofList xs)
      = String.intercalate "\n\n" ((xs.map pyStrip).filter (fun t => !(t == ""))) := by
  have e : _normalize_context (.ofList xs)
      = (if ((xs.filter (fun s => !(s == "") && !(pyStrip s == ""))).map pyStrip).isEmpty
         then ""
         else String.intercalate "\n\n"
           ((xs.filter (fun s => !(s == "") && !(pyStrip s == ""))).map pyStrip)) := rfl
  rw [e, filter_map_strip_comm xs, intercalate_if_isEmpty]

theorem normalize_emptyish (c : ContextInput) (hc : emptyishContext c) :
    _normalize_context c = "" := by
  cases c with
  | ofStr s => exact hc
  | ofList xs =>
      rw [normalize_ofList, filter_allstripped_nil xs hc]
      rfl
  | other => rfl

/-- Example environment whose backend immediately answers with hi. -/
def hiEnv : Env := ⟨some "hf_token", fun _ => .success (.pyList [[("answer", "hi")]])⟩

/-- C1, counterexample: with an empty-string context but a non-empty
conversation history, the inference client is invoked (one request) and the
returned answer is not the fallback, so the claim as stated fails for
non-empty history. -/
theorem c1_counterexample_history_defeats_fallback :
    emptyishContext (.ofStr "")
    ∧ (answer_with_history hiEnv "q" (.ofStr "")
        [("prev question", "prev answer")] none).requests.length = 1
    ∧ (answer_with_history hiEnv "q" (.ofStr "")
        [("prev question", "prev answer")] none).result = .answer "hi" :=
  ⟨pyStrip_empty, by decide, by decide⟩

/-- C1, amended: for every context input that is empty, whitespace-only, an
empty sequence, or a sequence of only empty or whitespace strings, and an
empty conversation history, answer_with_history returns the fixed fallback
string with no backend invocation and no retry sleep. -/
theorem c1_empty_context_fallback (env : Env) (q : String) (mid : Option String)
    (c : ContextInput) (hc : emptyishContext c) :
    answer_with_history env q c [] mid = ⟨.answer EMPTY_CONTEXT_FALLBACK, [], []⟩ := by
  have hn : _normalize_context c = "" := normalize_emptyish c hc
  have hcc : composeContext c [] = "" := by
    unfold composeContext
    simp [hn]
  unfold answer_with_history
  rw [if_pos (Or.inl hcc)]

theorem c1_empty_context_fallback_witness :
    answer_with_history hiEnv "What?" (.ofStr "   ") [] none
      = ⟨.answer EMPTY_CONTEXT_FALLBACK, [], []⟩ :=
  c1_empty_context_fallback hiEnv "What?" none (.ofStr "   ")
    (by show pyStrip "   " = ""
        decide)

/-- C5, counterexample: with an unknown model id but empty context, the
empty-context short-circuit fires first, so the call returns the fallback
answer and raises nothing. -/
theorem c5_counterexample_empty_context_unknown_model :
    QA_MODELS.find? (fun m => m.id == "nope") = none
    ∧ answer_with_history hiEnv "q" (.ofStr " ") [] (some "nope")
        = ⟨.answer EMPTY_CONTEXT_FALLBACK, [], []⟩ :=
  ⟨by decide, by decide⟩

/-- C5, amended: for every call whose combined context is non-empty (so the
empty-context short-circuit does not apply) and whose model_id does not
resolve to any configured registry entry, the engine raises the
unknown-model ValueError immediately, with zero backend calls and no retry
sleep. -/
theorem c5_unknown_model_raises (env : Env) (q : String) (c : ContextInput)
    (h : List (String × String)) (mid : Option String)
    (hctx : ¬(composeContext c h = "" ∨ pyStrip (composeContext c h) = ""))
    (hfind : QA_MODELS.find? (fun m => m.id == resolveModelId mid) = none) :
    answer_with_history env q c h mid
      = ⟨.unknownModelError (resolveModelId mid), [], []⟩ := by
  unfold answer_with_history
  rw [if_neg hctx]
  simp only [hfind]

theorem c5_unknown_model_raises_witness :
    answer_with_history hiEnv "q" (.ofStr "some context") [] (some "nope")
      = ⟨.unknownModelError "nope", [], []⟩ :=
  c5_unknown_model_raises hiEnv "q" (.ofStr "some context") [] (some "nope")
    (by decide) (by decide)

theorem runInference_requests (backend : Nat → BackendOutcome) (req : InferenceRequest) :
    (runInference backend req).requests
      = List.replicate (retryGo backend 0 MAX_RETRIES).calls req := rfl

theorem compose_empty_base (c : ContextInput) (hist : List (String × String))
    (hc : _normalize_context c = "") (hh : hist ≠ []) :
    composeContext c hist = "\n\n---\nPrevious Q&A:\n" ++ historyString hist := by
  have hne : hist.isEmpty = false := by
    cases hist with
    | nil => exact absurd rfl hh
    | cons a l => rfl
  unfold composeContext
  rw [hc, hne]
  simp

theorem marker_append_ne_empty (hstr : String) :
    "\n\n---\nPrevious Q&A:\n" ++ hstr ≠ "" := by
  intro he
  have hmem : '-' ∈ ("\n\n---\nPrevious Q&A:\n" ++ hstr).data := by
    rw [String.data_append]
    exact List.mem_append.mpr (Or.inl (by decide))
  rw [he] at hmem
  exact absurd hmem (by decide)

theorem pyStrip_marker_append_ne_empty (hstr : String) :
    pyStrip ("\n\n---\nPrevious Q&A:\n" ++ hstr) ≠ "" := by
  intro he
  have hmem : '-' ∈ ("\n\n---\nPrevious Q&A:\n" ++ hstr).data := by
    rw [String.data_append]
    exact List.mem_append.mpr (Or.inl (by decide))
  exact absurd (all_space_of_pyStrip_empty _ he '-' hmem) (by decide)

/-- C6: when the normalized document context is empty but the history list
is non-empty, the combined context is the non-empty Previous Q&A block
alone, the empty-context short-circuit does not fire, and (with a resolved
model and a constructed client) the backend is invoked with only the
historical Q/A text as context. -/
theorem c6_history_only_context (env : Env) (q : String) (c : ContextInput)
    (hist : List (String × String)) (mid : Option String)
    (hc : _normalize_context c = "") (hh : hist ≠ []) :
    composeContext c hist = "\n\n---\nPrevious Q&A:\n" ++ historyString hist
    ∧ ¬(composeContext c hist = "" ∨ pyStrip (composeContext c hist) = "")
    ∧ ((QA_MODELS.find? (fun m => m.id == resolveModelId mid)).isSome →
        _get_client env.hfToken ≠ none →
        (answer_with_history env q c hist mid).requests ≠ []
        ∧ ∀ req ∈ (answer_with_history env q c hist mid).requests,
            req.context = "\n\n---\nPrevious Q&A:\n" ++ historyString hist) := by
  have hcc : composeContext c hist = "\n\n---\nPrevious Q&A:\n" ++ historyString hist :=
    compose_empty_base c hist hc hh
  have hne : ¬(composeContext c hist = "" ∨ pyStrip (composeContext c hist) = "") := by
    rw [hcc]
    rintro (he | he)
    · exact marker_append_ne_empty (historyString hist) he
    · exact pyStrip_marker_append_ne_empty (historyString hist) he
  refine ⟨hcc, hne, ?_⟩
  intro hfind hcl
  obtain ⟨mc, hmc⟩ := Option.isSome_iff_exists.mp hfind
  have hawh : answer_with_history env q c hist mid
      = runInference env.backend ⟨q, composeContext c hist, mc.model, 384, 128, true⟩ := by
    unfold answer_with_history
    rw [if_neg hne]
    simp only [hmc]
    rcases hclv : _get_client env.hfToken with _ | tok
    · exact absurd hclv hcl
    · simp only [hclv]
  constructor
  · rw [hawh, runInference_requests]
    intro hnil
    have hlen := congrArg List.length hnil
    simp [List.length_replicate] at hlen
    have := loop_calls_pos env.backend
    omega
  · intro req hreq
    rw [hawh, runInference_requests] at hreq
    have hr := List.eq_of_mem_replicate hreq
    rw [hr]
    exact hcc

theorem c6_history_only_context_witness :
    (answer_with_history hiEnv "What is its capital?" (.ofStr "")
        [("What country?", "France")] none).requests ≠ [] :=
  ((c6_history_only_context hiEnv "What is its capital?" (.ofStr "")
      [("What country?", "France")] none rfl (by decide)).2.2
    (by decide) (by decide)).1

/-- C7: with non-empty history the context passed to the backend is the
normalized base context, the Previous Q&A marker, then each turn rendered
as a Q line and an A line with turns joined by newlines; and in the
concrete example the composed context contains the marker, the past
question and the past answer as substrings. -/
theorem c7_history_folding (c : ContextInput) (hist : List (String × String))
    (hh : hist ≠ []) :
    composeContext c hist
      = _normalize_context c ++ "\n\n---\nPrevious Q&A:\n"
        ++ String.intercalate "\n" (hist.map (fun t => "Q: " ++ t.1 ++ "\nA: " ++ t.2))
    ∧ (∀ env q mid req, req ∈ (answer_with_history env q c hist mid).requests →
        req.context = composeContext c hist)
    ∧ (∃ pre post,
        composeContext (.ofStr "France is a country.") [("What country?", "France")]
          = pre ++ "Previous Q&A:" ++ post)
    ∧ (∃ pre post,
        composeContext (.ofStr "France is a country.") [("What country?", "France")]
          = pre ++ "What country?" ++ post)
    ∧ (∃ pre post,
        composeContext (.ofStr "France is a country.") [("What country?", "France")]
          = pre ++ "France" ++ post) := by
  refine ⟨?_, ?_,
    ⟨"France is a country.\n\n---\n", "\nQ: What country?\nA: France", by decide⟩,
    ⟨"France is a country.\n\n---\nPrevious Q&A:\nQ: ", "\nA: France", by decide⟩,
    ⟨"", " is a country.\n\n---\nPrevious Q&A:\nQ: What country?\nA: France", by decide⟩⟩
  · cases hist with
    | nil => exact absurd rfl hh
    | cons a l => rfl
  · intro env q mid req hreq
    rcases awh_cases env q c hist mid with ⟨hreqs, _, _⟩ | ⟨mc, hfind, hctx, heq⟩
    · rw [hreqs] at hreq
      exact absurd hreq (List.not_mem_nil req)
    · rw [heq, runInference_requests] at hreq
      have hr := List.eq_of_mem_replicate hreq
      rw [hr]

theorem c7_history_folding_witness :
    composeContext (.ofStr "France is a country.") [("What country?", "France")]
      = _normalize_context (.ofStr "France is a country.") ++ "\n\n---\nPrevious Q&A:\n"
        ++ String.intercalate "\n"
            ([("What country?", "France")].map (fun t => "Q: " ++ t.1 ++ "\nA: " ++ t.2)) :=
  (c7_history_folding (.ofStr "France is a country.") [("What country?", "France")]
    (by decide)).1

/-- HF_TOKEN values on which the source raises its configuration error:
the variable is absent, or its value is empty or whitespace-only. -/
def tokenBlank : Option String → Prop
  | none => True
  | some s => s = "" ∨ pyStrip s = ""

/-- C8: when HF_TOKEN is absent or blank, client construction fails with
the configuration ValueError, the startup lifespan check also refuses to
start, the pipeline makes no backend call, the only answer it can still
return is the empty-context fallback, and any call that reaches client
construction (non-empty context, resolved model) surfaces the
configuration error. -/
theorem c8_missing_token (env : Env) (q : String) (c : ContextInput)
    (h : List (String × String)) (mid : Option String) (hb : tokenBlank env.hfToken) :
    _get_client env.hfToken = none
    ∧ startupTokenOk env.hfToken = false
    ∧ (answer_with_history env q c h mid).requests = []
    ∧ (∀ s, (answer_with_history env q c h mid).result = .answer s →
        s = EMPTY_CONTEXT_FALLBACK)
    ∧ (¬(composeContext c h = "" ∨ pyStrip (composeContext c h) = "") →
        (QA_MODELS.find? (fun m => m.id == resolveModelId mid)).isSome →
        (answer_with_history env q c h mid).result = .missingTokenError) := by
  have hps : ∀ t, env.hfToken = some t → pyStrip t = "" := by
    intro t henv
    rw [henv] at hb
    have hb' : t = "" ∨ pyStrip t = "" := hb
    rcases hb' with h1 | h2
    · exact h1 ▸ pyStrip_empty
    · exact h2
  have hcl : _get_client env.hfToken = none := by
    rcases henv : env.hfToken with _ | t
    · rfl
    · have := hps t henv
      simp [_get_client, this]
  have hst : startupTokenOk env.hfToken = false := by
    rcases henv : env.hfToken with _ | t
    · rfl
    · have := hps t henv
      simp [startupTokenOk, this]
  by_cases hctx : composeContext c h = "" ∨ pyStrip (composeContext c h) = ""
  · have hawh : answer_with_history env q c h mid
        = ⟨.answer EMPTY_CONTEXT_FALLBACK, [], []⟩ := by
      unfold answer_with_history
      rw [if_pos hctx]
    refine ⟨hcl, hst, by rw [hawh], ?_, ?_⟩
    · intro s hs
      rw [hawh] at hs
      injection hs with h'
      exact h'.symm
    · intro hctx' _
      exact absurd hctx hctx'
  · rcases hfind : QA_MODELS.find? (fun m => m.id == resolveModelId mid) with _ | mc
    · have hawh : answer_with_history env q c h mid
          = ⟨.unknownModelError (resolveModelId mid), [], []⟩ := by
        unfold answer_with_history
        rw [if_neg hctx]
        simp only [hfind]
      refine ⟨hcl, hst, by rw [hawh], ?_, ?_⟩
      · intro s hs
        rw [hawh] at hs
        exact absurd hs (by simp)
      · intro _ hfind'
        rw [hfind] at hfind'
        exact absurd hfind' (by simp)
    · have hawh : answer_with_history env q c h mid
          = ⟨.missingTokenError, [], []⟩ := by
        unfold answer_with_history
        rw [if_neg hctx]
        simp only [hfind, hcl]
      refine ⟨hcl, hst, by rw [hawh], ?_, ?_⟩
      · intro s hs
        rw [hawh] at hs
        exact absurd hs (by simp)
      · intro _ _
        rw [hawh]

/-- Environment with no HF_TOKEN set. -/
def noTokenEnv : Env := ⟨none, fun _ => .success .pyNone⟩

theorem c8_missing_token_witness :
    _get_client noTokenEnv.hfToken = none
    ∧ (answer_with_history noTokenEnv "q" (.ofStr "some context") [] none).result
        = .missingTokenError := by
  have h := c8_missing_token noTokenEnv "q" (.ofStr "some context") [] none trivial
  exact ⟨h.1, h.2.2.2.2 (by decide) (by decide)⟩

/-- Parameter names, after self, of ChatRepository.add_message
(app/storage/chat_repository.py lines 200-206). -/
def addMessageParams : List String := ["chat_id", "question", "answer", "model_used"]

/-- The call repo.add_message(chat_id, request.question, answer_text,
model_id, inference_time=inference_time) at app/api/ask.py lines 73-75:
four positional arguments and one keyword argument. -/
def askAddMessagePositional : Nat := 4

def askAddMessageKeywords : List String := ["inference_time"]

/-- Column names of the messages table (app/storage/db.py lines 29-38),
including the inference_time column added by the migration at lines 70-75. -/
def messagesColumns : List String :=
  ["id", "chat_id", "question", "answer", "model_used", "inference_time", "created_at"]

/-- Python call binding for positional-or-keyword parameters: a call is
accepted when the positional arguments do not exceed the parameter list and
every keyword argument names a parameter not already bound positionally;
otherwise the call raises TypeError. -/
def pyCallAccepts (params : List String) (npos : Nat) (kwargs : List String) : Bool :=
  decide (npos ≤ params.length) && kwargs.all (fun k => (params.drop npos).contains k)

/-- C9: the add_message call made by the ask endpoint passes an
inference_time keyword that the repository method does not accept, so the
call raises TypeError, although the messages table has an inference_time
column and the same call without the keyword (as made by
app/api/router.py line 273) is accepted. -/
theorem c9_add_message_rejects_inference_time :
    pyCallAccepts addMessageParams askAddMessagePositional askAddMessageKeywords = false
    ∧ messagesColumns.contains "inference_time" = true
    ∧ pyCallAccepts addMessageParams 4 [] = true := by decide

theorem resolveModelId_default :
    resolveModelId (some QA_DEFAULT_MODEL) = resolveModelId none := by decide

/-- C10: the single-turn entry point answer is definitionally
answer_with_history with empty history and the default model id, and
passing the default id explicitly coincides with omitting the model id. -/
theorem c10_answer_is_default_engine (env : Env) (q : String) (c : ContextInput) :
    answer env q c = answer_with_history env q c [] (some QA_DEFAULT_MODEL)
    ∧ answer env q c = answer_with_history env q c [] none := by
  constructor
  · rfl
  · show answer_with_history env q c [] (some QA_DEFAULT_MODEL)
        = answer_with_history env q c [] none
    unfold answer_with_history
    rw [resolveModelId_default]

end App
